import Mathlib

/-!
# Verification of the OpenCart UI test-suite framework

A shallow embedding, in Lean 4, of the parts of the repository that the
specification makes checkable claims about:

* `ProductPage.__get_product_meta_data` / `get_product_complete_info`
  (`src/pages/product_page.py`) — parsing of `label:value` metadata text
  nodes into the page object's persistent product-info map;
* `UserRegistrationPage.register_user` (`src/pages/user_registration_page.py`);
* `ElementUtil.click_element`, `select_options`, `is_element_displayed`,
  `enter_text`, `wait_for_element_to_be_visible`, `wait_for_title_contains`
  (`src/utils/element_util.py`);
* `driver_manager` (`src/utils/driver_factory/driver_manager.py`).

Python strings become `String`, dictionaries become association lists with
insert-or-overwrite, raised `FrameworkException`s become `Except` errors
tagged by the raise site (the spec's error taxonomy), and the browser is an
explicit oracle structure describing what each Selenium call would observe.
Performed side effects (clicks, typing) are recorded as traces so that
"does not perform X" claims are statable.
-/

namespace OpenCartSuite

/-! ## Python string primitives

The page objects use `str.split`, `str.strip`, `str.lower` and the `in`
substring test.  We embed them as structural functions over the character
list of a `String`, so that every concrete instance evaluates inside the
kernel. -/

/-- The whitespace characters removed by Python's `str.strip()`. -/
def isPySpace (c : Char) : Bool :=
  c == ' ' || c == '\t' || c == '\n' || c == '\r' || c == '\x0b' || c == '\x0c'

/-- Python `str.strip()`: drop leading and trailing whitespace. -/
def pyStrip (s : String) : String :=
  String.mk (((s.data.dropWhile isPySpace).reverse.dropWhile isPySpace).reverse)

/-- Worker for `pySplit`: scan the characters, cutting at each separator. -/
def pySplitAux (sep : Char) : List Char → List Char → List (List Char)
  | [], acc => [acc.reverse]
  | c :: cs, acc =>
    if c == sep then acc.reverse :: pySplitAux sep cs []
    else pySplitAux sep cs (c :: acc)

/-- Python `s.split(sep)` for a single-character separator: e.g.
`"a:b".split(":") = ["a", "b"]`, `"".split(":") = [""]`,
`"a::b".split(":") = ["a", "", "b"]`. -/
def pySplit (s : String) (sep : Char) : List String :=
  (pySplitAux sep s.data []).map String.mk

/-- Python `str.lower()` (ASCII case folding). -/
def pyLower (s : String) : String :=
  String.mk (s.data.map Char.toLower)

/-- Boolean list-prefix test. -/
def listIsPrefixOf : List Char → List Char → Bool
  | [], _ => true
  | _ :: _, [] => false
  | a :: as, b :: bs => a == b && listIsPrefixOf as bs

/-- Worker for `pyContains`: does `pat` occur at some position of `hay`? -/
def substrAux (pat : List Char) : List Char → Bool
  | [] => pat.isEmpty
  | c :: cs => listIsPrefixOf pat (c :: cs) || substrAux pat cs

/-- Python's `pat in hay` substring test. -/
def pyContains (hay pat : String) : Bool :=
  substrAux pat.data hay.data

/-- A Selenium locator: a `(By strategy, selector string)` pair. -/
abbrev Locator := String × String

/-- The framework's single exception class `FrameworkException`, refined by
raise site into the spec's error taxonomy.  Every constructor carries the
message the Python code passes to `FrameworkException(...)`. -/
inductive Err where
  /-- A required element/option/text match was absent. -/
  | notFound (message : String)
  /-- Caller passed an empty/invalid input to an interaction. -/
  | invalidArgument (message : String)
  /-- An explicit wait exceeded its budget; carries locator and timeout. -/
  | timeout (locator : Locator) (timeoutSecs : Nat) (message : String)
  /-- A multi-select matched a different number of options than requested. -/
  | partialSelection (message : String)
  /-- The driver factory received an unrecognized browser kind. -/
  | unsupportedBrowser (message : String)
  deriving Repr, DecidableEq

/-- The Selenium client exceptions that the utility code names explicitly
(`from selenium.common import NoSuchElementException, ...`). -/
inductive SelErr where
  | noSuchElement
  | staleElementReference
  deriving Repr, DecidableEq

/-- An exception in flight: either a raw Selenium exception or the
framework's own `FrameworkException`. -/
inductive Ex where
  | sel (e : SelErr)
  | fw (e : Err)
  deriving Repr, DecidableEq

/-! ## Product info map (`ProductPage.__product_info_map`)

The Python page object holds a `Dict[str, str]` that is only ever written
with `m[key] = value`.  We model it as an association list where insertion
overwrites any previous binding of the key. -/

/-- The product-info dictionary. -/
abbrev InfoMap := List (String × String)

/-- `m[key] = value` on a Python dict: overwrite the binding if the key is
present, otherwise add it. -/
def insertInfo (m : InfoMap) (k v : String) : InfoMap :=
  (k, v) :: m.filter (fun p => p.1 ≠ k)

/-- `m.get(key)` on a Python dict. -/
def lookupInfo (m : InfoMap) (k : String) : Option String :=
  (m.find? (fun p => p.1 = k)).map (fun p => p.2)

/-! ## `ProductPage.__get_product_meta_data`

```python
meta_list = self.__util.get_elements_text(self.__PRODUCT_META_DATA)
for meta in meta_list:
    parts = meta.split(":")
    if len(parts) == 2:
        key = parts[0].strip()
        value = parts[1].strip()
        self.__product_info_map[key] = value
```
-/

/-- One iteration of the metadata loop: split the text node on `":"`; when
that yields exactly two parts, insert the stripped pair, otherwise leave the
map unchanged. -/
def metaStep (m : InfoMap) (meta : String) : InfoMap :=
  let parts := pySplit meta ':'
  if parts.length = 2 then
    insertInfo m (pyStrip (parts.getD 0 "")) (pyStrip (parts.getD 1 ""))
  else
    m

/-- `__get_product_meta_data`: fold the loop body over the metadata text
nodes, mutating the persistent map. -/
def getProductMetaData (m : InfoMap) (metaList : List String) : InfoMap :=
  metaList.foldl metaStep m

/-! ## `ProductPage.__get_product_price_data`

```python
price_list = self.__util.get_elements_text(self.__PRODUCT_PRICE)
if not price_list:
    return
self.__product_info_map["price"] = price_list[0].strip()
if len(price_list) > 1:
    parts = price_list[1].split(":")
    if len(parts) == 2:
        self.__product_info_map[parts[0].strip()] = parts[1].strip()
```
-/

/-- `__get_product_price_data`. -/
def getProductPriceData (m : InfoMap) (priceList : List String) : InfoMap :=
  match priceList with
  | [] => m
  | first :: rest =>
    let m := insertInfo m "price" (pyStrip first)
    match rest with
    | [] => m
    | second :: _ => metaStep m second

/-- What `get_element_text` on the product-header locator and
`get_elements_text` on the metadata/price locators would return for the page
currently rendered.  The header lookup may raise (`find_element` fails when
the node is absent); the plural lookups return possibly-empty lists. -/
structure ProductPageView where
  headerText : Except Ex String
  metaTexts : List String
  priceTexts : List String

/-- `ProductPage.get_product_complete_info`: store the header under
`"productHeader"`, then merge metadata and price data into the persistent
map, and return the (updated) map. -/
def getProductCompleteInfo (pv : ProductPageView) (m : InfoMap) :
    Except Ex InfoMap := do
  let h ← pv.headerText
  let m := insertInfo m "productHeader" h
  let m := getProductMetaData m pv.metaTexts
  let m := getProductPriceData m pv.priceTexts
  pure m

/-- Spec-side reading of one metadata node (claim C1's wording): a node
consisting of exactly two colon-separated parts is a `label:value` pair,
keys and values whitespace-trimmed; anything else is malformed. -/
def specParseMeta (meta : String) : Option (String × String) :=
  match pySplit meta ':' with
  | [k, v] => some (pyStrip k, pyStrip v)
  | _ => none

/-- A key is bound in the product-info map. -/
def hasKey (m : InfoMap) (k : String) : Bool :=
  (lookupInfo m k).isSome

/-! ## `ElementUtil` (`src/utils/element_util.py`)

The browser is an oracle `Dom` describing what `find_element` /
`find_elements` would resolve for each locator; an element handle carries
the observations the code makes of it (`.text`, `.is_displayed()`) plus a
staleness flag (a stale handle makes the client raise
`StaleElementReferenceException`). -/

/-- A live (possibly stale) element handle. -/
structure Elem where
  text : String
  displayed : Bool
  stale : Bool
  deriving Repr, DecidableEq

/-- The document as the Selenium client currently resolves it. -/
structure Dom where
  /-- `driver.find_element(*locator)`: the single match, if any. -/
  find : Locator → Option Elem
  /-- `driver.find_elements(*locator)`: all matches (empty when none). -/
  findAll : Locator → List Elem

/-- `ElementUtil.get_element`: `driver.find_element` raises
`NoSuchElementException` when nothing matches.  (The optional visual
`flash` is cosmetic and not modelled: the spec notes it never affects
returned values.) -/
def getElement (d : Dom) (loc : Locator) : Except Ex Elem :=
  match d.find loc with
  | some el => .ok el
  | none => .error (.sel .noSuchElement)

/-- `element.is_displayed()`: raises on a stale handle, otherwise reports
visibility. -/
def elemIsDisplayed (el : Elem) : Except Ex Bool :=
  if el.stale then .error (.sel .staleElementReference) else .ok el.displayed

/-- `element.click()` / `element.clear()` / `element.send_keys(...)`:
raise on a stale handle, otherwise succeed. -/
def elemInteract (el : Elem) : Except Ex Unit :=
  if el.stale then .error (.sel .staleElementReference) else .ok ()

/-- What a `click_element` call ended up clicking, if anything. -/
inductive ClickTarget where
  /-- The element resolved from the locator argument. -/
  | byLocator (loc : Locator)
  /-- The element at this index of the `elements` list argument. -/
  | byIndex (i : Nat)
  deriving Repr, DecidableEq

/-- `ElementUtil.click_element(locator=None, elements=None, value=None)`.
`if locator:` — a present locator tuple is truthy; `elif elements and
value:` — both must be truthy, i.e. a non-empty list and a non-empty
string; when neither guard holds the function silently does nothing.  In
the `elements`/`value` branch the loop clicks the first element whose
`.text` equals `value` and breaks; the `for ... else` raises
`FrameworkException` when no element matched. -/
def clickElement (d : Dom) (locator : Option Locator)
    (elements : Option (List Elem)) (value : Option String) :
    Except Ex (Option ClickTarget) :=
  match locator with
  | some loc => do
    let el ← getElement d loc
    let _ ← elemInteract el
    pure (some (.byLocator loc))
  | none =>
    match elements, value with
    | some els, some v =>
      if els ≠ [] ∧ v ≠ "" then
        match els.findIdx? (fun el => el.text == v) with
        | some i => do
          let _ ← elemInteract (els.getD i ⟨"", false, false⟩)
          pure (some (.byIndex i))
        | none =>
          .error (.fw (.notFound
            ("Element with text " ++ v ++ " not found in the provided elements.")))
      else pure none
    | _, _ => pure none

/-- `ElementUtil.select_options(dropdown_locator, choices_locator, *values)`:
open the dropdown, click every choice whose text is among `values`, and
raise `FrameworkException` when the number of clicked choices differs from
the number of requested values. -/
def selectOptions (d : Dom) (dropdownLocator choicesLocator : Locator)
    (values : List String) : Except Ex Nat := do
  let dropdown ← getElement d dropdownLocator
  let _ ← elemInteract dropdown
  let choices := d.findAll choicesLocator
  let selectedCount := (choices.filter (fun c => values.contains c.text)).length
  if selectedCount ≠ values.length then
    .error (.fw (.partialSelection
      ("Not all options were selected. Expected: " ++ toString values.length
        ++ ", Selected: " ++ toString selectedCount ++ ".")))
  else
    pure selectedCount

/-- The `isinstance(locator, tuple)` dispatch shared by `enter_text` and
`is_element_displayed`: a tuple goes through `get_element`, a `WebElement`
is used as is. -/
def resolveRef (d : Dom) (ref : Locator ⊕ Elem) : Except Ex Elem :=
  match ref with
  | .inl loc => getElement d loc
  | .inr el => pure el

/-- `ElementUtil.is_element_displayed(element_reference)`: resolve the
reference (locator tuple or handle), ask for visibility, and catch exactly
`NoSuchElementException` and `StaleElementReferenceException`, turning them
into `False`; any other exception would propagate. -/
def isElementDisplayed (d : Dom) (ref : Locator ⊕ Elem) : Except Ex Bool :=
  let attempt : Except Ex Bool := do
    let el ← resolveRef d ref
    elemIsDisplayed el
  match attempt with
  | .ok b => .ok b
  | .error (.sel .noSuchElement) => .ok false
  | .error (.sel .staleElementReference) => .ok false
  | .error e => .error e

/-- Side effects `enter_text` performs on the resolved field. -/
inductive FieldAction where
  | cleared
  | typed (s : String)
  deriving Repr, DecidableEq

/-- `ElementUtil.enter_text(locator, value)`: `if not value:` raises
`FrameworkException` before anything else; otherwise resolve the reference,
`clear()` the field, then `send_keys(value)`. -/
def enterText (d : Dom) (ref : Locator ⊕ Elem) (value : String) :
    Except Ex (List FieldAction) :=
  if value = "" then
    .error (.fw (.invalidArgument "Value cannot be empty or null for entering text."))
  else do
    let el ← resolveRef d ref
    let _ ← elemInteract el
    pure [.cleared, .typed value]

/-- The message of the `FrameworkException` raised when a visibility wait
times out: it names both the timeout and the locator. -/
def timeoutMessage (loc : Locator) (timeoutSecs : Nat) : String :=
  "Element not visible after " ++ toString timeoutSecs ++ " seconds: ("
    ++ loc.1 ++ ", " ++ loc.2 ++ ")"

/-- `expected_conditions.visibility_of_element_located` at one poll tick:
the element as returned when it is located, not stale and displayed. -/
def visibleAt (d : Dom) (loc : Locator) : Option Elem :=
  match d.find loc with
  | some el => if !el.stale && el.displayed then some el else none
  | none => none

/-- `ElementUtil.wait_for_element_to_be_visible(locator, timeout)`: poll
the visibility condition (one tick per second, ticks `0..timeout`) and
return the element of the first successful tick; on `TimeoutException`
re-raise as `FrameworkException` carrying the locator and the timeout. -/
def waitForElementToBeVisible (domAt : Nat → Dom) (loc : Locator)
    (timeout : Nat) : Except Ex Elem :=
  match (List.range (timeout + 1)).findSome? (fun t => visibleAt (domAt t) loc) with
  | some el => .ok el
  | none => .error (.fw (.timeout loc timeout (timeoutMessage loc timeout)))

/-- `ElementUtil.wait_for_title_contains(fractional_title, timeout)`: poll
`expected_conditions.title_contains`; on success re-read and return the
full title; on `TimeoutException` return `None` instead of raising. -/
def waitForTitleContains (titleAt : Nat → String) (fractionalTitle : String)
    (timeout : Nat) : Option String :=
  match (List.range (timeout + 1)).find?
      (fun t => pyContains (titleAt t) fractionalTitle) with
  | some t => some (titleAt t)
  | none => none

/-! ## `UserRegistrationPage.register_user`
(`src/pages/user_registration_page.py`)

The browser is an oracle saying whether each explicit wait succeeds and
what text the post-submit `div#content h1` element shows; the side effects
performed on the page are recorded as a trace. -/

/-- `constants.app_constants.USER_REGISTER_SUCCESS_MESG`. -/
def USER_REGISTER_SUCCESS_MESG : String := "Your Account Has Been Created!"

/-- `constants.app_constants.SHORT_WAIT`. -/
def SHORT_WAIT : Nat := 5

/-- The first-name field locator `(By.ID, "input-firstname")`. -/
def inputFirstnameLocator : Locator := ("id", "input-firstname")

/-- The post-submit message locator `(By.CSS_SELECTOR, "div#content h1")`. -/
def successMessageLocator : Locator := ("css selector", "div#content h1")

/-- One side effect performed by `register_user` on the page. -/
inductive RegAction where
  | typeFirstName (s : String)
  | enterLastName (s : String)
  | enterEmail (s : String)
  | enterTelephone (s : String)
  | enterPassword (s : String)
  | enterConfirmPassword (s : String)
  /-- Click the subscribe radio at 1-based position `i` (1 = yes, 2 = no). -/
  | clickSubscribe (i : Nat)
  | clickAgree
  | clickContinue
  | clickLogout
  | clickRegister
  deriving Repr, DecidableEq

/-- What the browser would answer to each call `register_user` makes. -/
structure RegWorld where
  /-- The initial `wait_for_element_to_be_visible(first_name, 5)` succeeds. -/
  formVisible : Bool
  /-- The `wait_for_element_to_be_visible(success_message, SHORT_WAIT)`
  succeeds. -/
  successMesgVisible : Bool
  /-- The raw `.text` of the post-submit message element (the code strips
  it before comparing). -/
  successMesgText : String
  /-- The final `wait_for_element_to_be_visible(first_name, SHORT_WAIT)`
  after log-out and re-navigation succeeds. -/
  formVisibleAgain : Bool

/-- The common form-filling trace: type the first name, `enter_text` the
remaining fields (confirm-password repeats the password), pick the
subscribe radio, accept the terms, submit. -/
def regFormTrace (firstName lastName email telephone password : String)
    (subscribeIdx : Nat) : List RegAction :=
  [.typeFirstName firstName, .enterLastName lastName, .enterEmail email,
   .enterTelephone telephone, .enterPassword password,
   .enterConfirmPassword password, .clickSubscribe subscribeIdx,
   .clickAgree, .clickContinue]

/-- `UserRegistrationPage.register_user`: fill and submit the form, strip
the post-submit message, compare it to the configured success text; on a
match, log out, re-open the registration page, wait for the form and
return `True`; on a mismatch return `False` without those steps.  The
`enter_text` calls raise on empty values, and each failed wait raises. -/
def registerUser (w : RegWorld)
    (firstName lastName email telephone password subscribe : String) :
    Except Ex (Bool × List RegAction) :=
  let subscribeIdx := if pyLower (pyStrip subscribe) = "yes" then 1 else 2
  if w.formVisible = false then
    .error (.fw (.timeout inputFirstnameLocator 5 (timeoutMessage inputFirstnameLocator 5)))
  else if lastName = "" then
    .error (.fw (.invalidArgument "Value cannot be empty or null for entering text."))
  else if email = "" then
    .error (.fw (.invalidArgument "Value cannot be empty or null for entering text."))
  else if telephone = "" then
    .error (.fw (.invalidArgument "Value cannot be empty or null for entering text."))
  else if password = "" then
    .error (.fw (.invalidArgument "Value cannot be empty or null for entering text."))
  else if w.successMesgVisible = false then
    .error (.fw (.timeout successMessageLocator SHORT_WAIT
      (timeoutMessage successMessageLocator SHORT_WAIT)))
  else
    let tr := regFormTrace firstName lastName email telephone password subscribeIdx
    if pyStrip w.successMesgText = USER_REGISTER_SUCCESS_MESG then
      if w.formVisibleAgain = false then
        .error (.fw (.timeout inputFirstnameLocator SHORT_WAIT
          (timeoutMessage inputFirstnameLocator SHORT_WAIT)))
      else
        .ok (true, tr ++ [.clickLogout, .clickRegister])
    else
      .ok (false, tr)

/-! ## `driver_manager` (`src/utils/driver_factory/driver_manager.py`) -/

/-- The observable state of a created browser session. -/
structure DriverSession where
  browserKind : String
  maximized : Bool
  cookies : List String
  deriving Repr, DecidableEq

/-- The browser kinds the factory's `match` accepts. -/
def supportedBrowsers : List String := ["chrome", "firefox", "edge"]

/-- The message of the `FrameworkException` the factory raises on an
unrecognized browser kind: it names the offending value and lists the
valid choices. -/
def unsupportedBrowserMessage (browser : String) : String :=
  "Unsupported browser type: " ++ browser
    ++ ". Supported browsers are: Chrome, Firefox, Edge"

/-- `driver.maximize_window()`. -/
def maximizeWindow (s : DriverSession) : DriverSession :=
  ⟨s.browserKind, true, s.cookies⟩

/-- `driver.delete_all_cookies()`. -/
def deleteAllCookies (s : DriverSession) : DriverSession :=
  ⟨s.browserKind, s.maximized, []⟩

/-- `driver_manager(browser, remote, version, test_name)`: dispatch on
`browser.strip().lower()` (the Python `match`/`case` tests the kinds in
order); each supported kind builds its options and instantiates a driver
(locally or against the grid — not observable here, so a fresh session
starts unmaximized with whatever cookies the browser profile has), then
the session is maximized and all cookies deleted; an unrecognized kind
raises before any session setup. -/
def driverManager (initialCookies : List String) (browser : String)
    (remote : Bool) (version testName : String) : Except Ex DriverSession :=
  let kind := pyLower (pyStrip browser)
  let instantiate : String → DriverSession := fun k => ⟨k, false, initialCookies⟩
  let setup : DriverSession → DriverSession := fun s => deleteAllCookies (maximizeWindow s)
  if kind = "chrome" then
    .ok (setup (instantiate "chrome"))
  else if kind = "firefox" then
    .ok (setup (instantiate "firefox"))
  else if kind = "edge" then
    .ok (setup (instantiate "edge"))
  else
    .error (.fw (.unsupportedBrowser (unsupportedBrowserMessage browser)))

/-! ## Concrete documents used to instantiate the theorems -/

/-- A document with no elements at all. -/
def emptyDom : Dom := ⟨fun _ => none, fun _ => []⟩

/-- A document whose custom dropdown shows two distinct option elements
with the same visible text `"A"`. -/
def dupChoicesDom : Dom :=
  ⟨fun _ => some ⟨"dropdown", true, false⟩,
   fun _ => [⟨"A", true, false⟩, ⟨"A", true, false⟩]⟩

/-- A demo trigger locator for the custom multi-select. -/
def demoDropdownLocator : Locator := ("id", "multi-select")

/-- A demo option locator for the custom multi-select. -/
def demoChoicesLocator : Locator := ("css selector", ".dropdown-item")

theorem hasKey_iff_exists (m : InfoMap) (k : String) :
    hasKey m k = true ↔ ∃ v, (k, v) ∈ m := by
  unfold hasKey lookupInfo
  rw [Option.isSome_map', List.find?_isSome]
  constructor
  · rintro ⟨⟨k', v⟩, hmem, hk⟩
    simp only [decide_eq_true_eq] at hk
    exact ⟨v, by simpa [hk] using hmem⟩
  · rintro ⟨v, hmem⟩
    exact ⟨(k, v), hmem, by simp⟩

theorem hasKey_insertInfo (m : InfoMap) (k v k' : String)
    (h : hasKey m k' = true) : hasKey (insertInfo m k v) k' = true := by
  rw [hasKey_iff_exists] at h ⊢
  obtain ⟨w, hw⟩ := h
  by_cases hk : k' = k
  · exact ⟨v, by simp [insertInfo, hk]⟩
  · refine ⟨w, ?_⟩
    simp only [insertInfo, List.mem_cons, List.mem_filter]
    exact Or.inr ⟨hw, by simpa using hk⟩

theorem hasKey_metaStep (m : InfoMap) (meta k : String)
    (h : hasKey m k = true) : hasKey (metaStep m meta) k = true := by
  unfold metaStep
  dsimp only
  split
  · exact hasKey_insertInfo _ _ _ _ h
  · exact h

theorem hasKey_getProductMetaData (metaList : List String) (m : InfoMap)
    (k : String) (h : hasKey m k = true) :
    hasKey (getProductMetaData m metaList) k = true := by
  induction metaList generalizing m with
  | nil => exact h
  | cons hd tl ih => exact ih _ (hasKey_metaStep m hd k h)

theorem hasKey_getProductPriceData (m : InfoMap) (priceList : List String)
    (k : String) (h : hasKey m k = true) :
    hasKey (getProductPriceData m priceList) k = true := by
  unfold getProductPriceData
  cases priceList with
  | nil => exact h
  | cons first rest =>
    cases rest with
    | nil => exact hasKey_insertInfo _ _ _ _ h
    | cons second tl =>
      exact hasKey_metaStep _ _ _ (hasKey_insertInfo _ _ _ _ h)

/-- `get_product_complete_info` only adds or overwrites map entries: every
key bound before a successful call is still bound after it. -/
theorem hasKey_getProductCompleteInfo (pv : ProductPageView)
    (m m' : InfoMap) (hrun : getProductCompleteInfo pv m = .ok m')
    (k : String) (h : hasKey m k = true) : hasKey m' k = true := by
  unfold getProductCompleteInfo at hrun
  cases hh : pv.headerText with
  | error e => rw [hh] at hrun; exact absurd hrun (by simp [Bind.bind, Except.bind])
  | ok hdr =>
    rw [hh] at hrun
    simp only [Bind.bind, Except.bind, pure, Except.pure, Except.ok.injEq] at hrun
    subst hrun
    exact hasKey_getProductPriceData _ _ _
      (hasKey_getProductMetaData _ _ _ (hasKey_insertInfo _ _ _ _ h))

/-- **C1.** Product-info extraction: every metadata text node consisting of
exactly two colon-separated parts is parsed as a `label:value` pair and
added to the map with key and value whitespace-trimmed; every malformed
node (not exactly two colon-separated parts) is silently skipped.  The
lines `["Brand: Apple", "Product Code: Product 18"]` yield a map containing
`"Brand" ↦ "Apple"` and `"Product Code" ↦ "Product 18"`, and a line with no
colon (splitting on colon returns just the line itself) contributes
nothing. -/
theorem product_meta_extraction_correct :
    (∀ (m : InfoMap) (meta k v : String),
        specParseMeta meta = some (k, v) → metaStep m meta = insertInfo m k v) ∧
    (∀ (m : InfoMap) (meta : String),
        specParseMeta meta = none → metaStep m meta = m) ∧
    lookupInfo (getProductMetaData [] ["Brand: Apple", "Product Code: Product 18"])
        "Brand" = some "Apple" ∧
    lookupInfo (getProductMetaData [] ["Brand: Apple", "Product Code: Product 18"])
        "Product Code" = some "Product 18" ∧
    (∀ (m : InfoMap) (meta : String),
        pySplit meta ':' = [meta] → metaStep m meta = m) ∧
    getProductMetaData [] ["line with no colon"] = [] := by
  refine ⟨?_, ?_, by decide, by decide, ?_, by decide⟩
  · intro m meta k v h
    unfold specParseMeta at h
    unfold metaStep
    dsimp only
    rcases hs : pySplit meta ':' with _ | ⟨a, rest⟩
    · rw [hs] at h; exact absurd h (by simp)
    · rcases rest with _ | ⟨b, rest2⟩
      · rw [hs] at h; exact absurd h (by simp)
      · rcases rest2 with _ | ⟨c, rest3⟩
        · rw [hs] at h
          simp only [Option.some.injEq, Prod.mk.injEq] at h
          obtain ⟨rfl, rfl⟩ := h
          simp
        · rw [hs] at h; exact absurd h (by simp)
  · intro m meta h
    unfold specParseMeta at h
    unfold metaStep
    dsimp only
    rcases hs : pySplit meta ':' with _ | ⟨a, rest⟩
    · simp
    · rcases rest with _ | ⟨b, rest2⟩
      · simp
      · rcases rest2 with _ | ⟨c, rest3⟩
        · rw [hs] at h; simp at h
        · simp
  · intro m meta h
    unfold metaStep
    dsimp only
    rw [h]
    simp

theorem product_meta_extraction_correct_witness :
    metaStep [] "Brand: Apple" = insertInfo [] "Brand" "Apple" ∧
    metaStep [("Brand", "Apple")] "no colon" = [("Brand", "Apple")] ∧
    metaStep [] "a:b:c" = [] :=
  ⟨product_meta_extraction_correct.1 [] "Brand: Apple" "Brand" "Apple" (by decide),
   product_meta_extraction_correct.2.1 [("Brand", "Apple")] "no colon" (by decide),
   product_meta_extraction_correct.2.1 [] "a:b:c" (by decide)⟩

/-- **C10.** On one `ProductPage` instance, `get_product_complete_info`
accumulates into the persistent `__product_info_map`, which is never
cleared: for two successive successful calls, every key present in the
earlier call's result is still present in the later call's result, whatever
the page shows at the time of the later call (absent or malformed nodes
included). -/
theorem product_info_map_accumulates
    (pv₁ pv₂ : ProductPageView) (m m₁ m₂ : InfoMap)
    (h₁ : getProductCompleteInfo pv₁ m = .ok m₁)
    (h₂ : getProductCompleteInfo pv₂ m₁ = .ok m₂)
    (k : String) (hk : hasKey m₁ k = true) : hasKey m₂ k = true :=
  hasKey_getProductCompleteInfo pv₂ m₁ m₂ h₂ k hk

theorem product_info_map_accumulates_witness :
    hasKey [("productHeader", "MacBook Pro"), ("price", "$2,000.00"),
            ("Brand", "Apple")] "Brand" = true :=
  product_info_map_accumulates
    ⟨.ok "MacBook Pro", ["Brand: Apple"], ["$2,000.00"]⟩
    ⟨.ok "MacBook Pro", ["malformed no colon"], []⟩
    [] [("price", "$2,000.00"), ("Brand", "Apple"), ("productHeader", "MacBook Pro")]
    [("productHeader", "MacBook Pro"), ("price", "$2,000.00"), ("Brand", "Apple")]
    rfl rfl "Brand" rfl

/-- `is_element_displayed` always lands in the `Except.ok` channel, and
computes visibility with "not found"/"stale" collapsed to `false`. -/
theorem isElementDisplayed_eq_ok (d : Dom) (ref : Locator ⊕ Elem) :
    isElementDisplayed d ref = .ok
      (match resolveRef d ref with
       | .ok el => !el.stale && el.displayed
       | .error _ => false) := by
  unfold isElementDisplayed
  cases hres : resolveRef d ref with
  | error e =>
    rcases e with se | fe
    · cases se <;>
        simp [hres, Bind.bind, Except.bind]
    · -- `resolveRef` only raises Selenium exceptions, never a
      -- `FrameworkException`
      exfalso
      rcases ref with loc | el
      · unfold resolveRef getElement at hres
        dsimp only at hres
        cases hfind : d.find loc <;> rw [hfind] at hres <;> simp_all
      · unfold resolveRef at hres
        dsimp only at hres
        simp [pure, Except.pure] at hres
  | ok el =>
    cases hstale : el.stale <;>
      simp [hres, Bind.bind, Except.bind, elemIsDisplayed, hstale]

/-- **C5.** `is_element_displayed` never throws: it always produces a
boolean (`Except.ok`); a "not found" or "stale reference" condition yields
`false` instead of an exception, and otherwise the element's recorded
visibility is returned. -/
theorem is_element_displayed_never_throws (d : Dom) (ref : Locator ⊕ Elem) :
    (∃ b, isElementDisplayed d ref = .ok b) ∧
    (∀ loc, ref = Sum.inl loc → d.find loc = none →
      isElementDisplayed d ref = .ok false) ∧
    (∀ loc el, ref = Sum.inl loc → d.find loc = some el → el.stale = true →
      isElementDisplayed d ref = .ok false) ∧
    (∀ loc el, ref = Sum.inl loc → d.find loc = some el → el.stale = false →
      isElementDisplayed d ref = .ok el.displayed) ∧
    (∀ el, ref = Sum.inr el → el.stale = true →
      isElementDisplayed d ref = .ok false) ∧
    (∀ el, ref = Sum.inr el → el.stale = false →
      isElementDisplayed d ref = .ok el.displayed) := by
  refine ⟨?_, ?_, ?_, ?_, ?_, ?_⟩
  · rw [isElementDisplayed_eq_ok]
    exact ⟨_, rfl⟩
  · intro loc heq hfind
    subst heq
    rw [isElementDisplayed_eq_ok]
    simp [resolveRef, getElement, hfind]
  · intro loc el heq hfind hstale
    subst heq
    rw [isElementDisplayed_eq_ok]
    simp [resolveRef, getElement, hfind, hstale]
  · intro loc el heq hfind hstale
    subst heq
    rw [isElementDisplayed_eq_ok]
    simp [resolveRef, getElement, hfind, hstale]
  · intro el heq hstale
    subst heq
    rw [isElementDisplayed_eq_ok]
    simp [resolveRef, hstale, pure, Except.pure]
  · intro el heq hstale
    subst heq
    rw [isElementDisplayed_eq_ok]
    simp [resolveRef, hstale, pure, Except.pure]

theorem is_element_displayed_never_throws_witness :
    isElementDisplayed emptyDom (Sum.inl ("id", "error-message")) = .ok false :=
  (is_element_displayed_never_throws emptyDom
    (Sum.inl ("id", "error-message"))).2.1 ("id", "error-message") rfl rfl

/-- **C6.** `wait_for_title_contains` never throws (it totally computes an
`Option String`): on a match within the poll window it returns the full
page title, which contains the fragment; when no tick within the window
matches, it returns `none`, not an error. -/
theorem wait_title_contains_spec (titleAt : Nat → String) (frag : String)
    (T : Nat) :
    (∀ s, waitForTitleContains titleAt frag T = some s →
      pyContains s frag = true ∧ ∃ t, t ≤ T ∧ s = titleAt t) ∧
    (waitForTitleContains titleAt frag T = none ↔
      ∀ t, t ≤ T → pyContains (titleAt t) frag = false) := by
  constructor
  · intro s hs
    unfold waitForTitleContains at hs
    cases hfind : (List.range (T + 1)).find?
        (fun t => pyContains (titleAt t) frag) with
    | none => rw [hfind] at hs; exact absurd hs (by simp)
    | some t =>
      rw [hfind] at hs
      simp only [Option.some.injEq] at hs
      subst hs
      have hp := List.find?_some hfind
      have hmem := List.mem_of_find?_eq_some hfind
      rw [List.mem_range] at hmem
      exact ⟨hp, t, by omega, rfl⟩
  · unfold waitForTitleContains
    cases hfind : (List.range (T + 1)).find?
        (fun t => pyContains (titleAt t) frag) with
    | none =>
      simp only [true_iff]
      rw [List.find?_eq_none] at hfind
      intro t ht
      have := hfind t (List.mem_range.mpr (by omega))
      simpa using this
    | some t =>
      have hp : pyContains (titleAt t) frag = true := by
        simpa using List.find?_some hfind
      have hmem := List.mem_of_find?_eq_some hfind
      rw [List.mem_range] at hmem
      constructor
      · intro h
        exact absurd h (by simp)
      · intro hall
        have hc := hall t (by omega)
        rw [hc] at hp
        exact absurd hp (by simp)

theorem wait_title_contains_spec_witness :
    pyContains "Your Store" "Store" = true ∧
    ∃ t, t ≤ 3 ∧ "Your Store" =
      (fun n => if n = 2 then "Your Store" else "Loading") t :=
  (wait_title_contains_spec (fun n => if n = 2 then "Your Store" else "Loading")
    "Store" 3).1 "Your Store" rfl

/-- **C7.** `enter_text` with an empty value fails with
`InvalidArgumentError` for every document state and every locator or
handle — the result does not depend on the document, so the failure
precedes any element lookup, clearing or typing — while a non-empty value
on a live, resolvable field clears the field and then types the value. -/
theorem enter_text_empty_rejected (d : Dom) (ref : Locator ⊕ Elem)
    (v : String) :
    (enterText d ref "" = .error (.fw (.invalidArgument
      "Value cannot be empty or null for entering text."))) ∧
    (v ≠ "" → ∀ el, resolveRef d ref = .ok el → el.stale = false →
      enterText d ref v = .ok [.cleared, .typed v]) := by
  constructor
  · rfl
  · intro hv el hres hstale
    unfold enterText
    rw [if_neg hv]
    simp [Bind.bind, Except.bind, hres, elemInteract, hstale, pure, Except.pure]

theorem enter_text_empty_rejected_witness :
    enterText emptyDom (Sum.inl ("id", "input-email")) "" =
      .error (.fw (.invalidArgument
        "Value cannot be empty or null for entering text.")) ∧
    enterText emptyDom (Sum.inr ⟨"", false, false⟩) "user@example.com" =
      .ok [.cleared, .typed "user@example.com"] :=
  ⟨(enter_text_empty_rejected emptyDom (Sum.inl ("id", "input-email")) "x").1,
   (enter_text_empty_rejected emptyDom (Sum.inr ⟨"", false, false⟩)
      "user@example.com").2 (by decide) ⟨"", false, false⟩ rfl rfl⟩

/-- **C8.** `wait_for_element_to_be_visible` terminates on every input:
it either returns an element handle — one that was present and visible at
some tick within the timeout window — or fails with the timeout
`FrameworkException` carrying both the locator and the timeout value, and
it times out exactly when no tick within the window had the element
visible. -/
theorem wait_visible_terminates (domAt : Nat → Dom) (loc : Locator)
    (T : Nat) :
    ((∃ el, waitForElementToBeVisible domAt loc T = .ok el) ∨
      waitForElementToBeVisible domAt loc T =
        .error (.fw (.timeout loc T (timeoutMessage loc T)))) ∧
    (∀ el, waitForElementToBeVisible domAt loc T = .ok el →
      ∃ t, t ≤ T ∧ visibleAt (domAt t) loc = some el) ∧
    (waitForElementToBeVisible domAt loc T =
        .error (.fw (.timeout loc T (timeoutMessage loc T))) ↔
      ∀ t, t ≤ T → visibleAt (domAt t) loc = none) := by
  unfold waitForElementToBeVisible
  cases hfind : (List.range (T + 1)).findSome?
      (fun t => visibleAt (domAt t) loc) with
  | some el =>
    refine ⟨Or.inl ⟨el, rfl⟩, ?_, ?_⟩
    · intro el' hel'
      simp only [Except.ok.injEq] at hel'
      subst hel'
      obtain ⟨t, hmem, hvis⟩ := List.exists_of_findSome?_eq_some hfind
      rw [List.mem_range] at hmem
      exact ⟨t, by omega, hvis⟩
    · constructor
      · intro h
        exact absurd h (by simp)
      · intro hall
        obtain ⟨t, hmem, hvis⟩ := List.exists_of_findSome?_eq_some hfind
        rw [List.mem_range] at hmem
        have hnone := hall t (by omega)
        rw [hnone] at hvis
        exact absurd hvis (by simp)
  | none =>
    refine ⟨Or.inr rfl, ?_, ?_⟩
    · intro el hel
      exact absurd hel (by simp)
    · simp only [true_iff]
      rw [List.findSome?_eq_none_iff] at hfind
      intro t ht
      exact hfind t (List.mem_range.mpr (by omega))

/-- **C3 (counterexample).** The claim says `click_matching` fails with
`NotFoundError` whenever no handle matches, "including when the list is
empty".  But with an empty list the Python guard `elif elements and value:`
is falsy (an empty list is falsy), so `click_element` silently does nothing
and raises nothing. -/
theorem click_matching_empty_counterexample :
    clickElement emptyDom none (some []) (some "MacBook Pro") = .ok none ∧
    ∀ e, clickElement emptyDom none (some []) (some "MacBook Pro") ≠
      .error e := by
  refine ⟨rfl, fun e h => ?_⟩
  rw [show clickElement emptyDom none (some []) (some "MacBook Pro") =
      .ok none from rfl] at h
  exact Except.noConfusion h

/-- **C3 (amended).** For a NON-EMPTY handle list and a non-empty expected
text, `click_matching` fails with `NotFoundError` when no handle's text
equals the expected text; when some handle matches, it clicks the first
such handle and does not raise; with an empty handle list the call is a
silent no-op (nothing clicked, nothing raised). -/
theorem click_matching_spec (d : Dom) (els : List Elem) (v : String)
    (hv : v ≠ "") (hlive : ∀ el ∈ els, el.stale = false) :
    ((∀ el ∈ els, el.text ≠ v) → els ≠ [] →
      clickElement d none (some els) (some v) =
        .error (.fw (.notFound
          ("Element with text " ++ v ++ " not found in the provided elements.")))) ∧
    ((∃ el ∈ els, el.text = v) →
      ∃ i : Fin els.length, (els.get i).text = v ∧
        (∀ j : Fin els.length, j.val < i.val → (els.get j).text ≠ v) ∧
        clickElement d none (some els) (some v) =
          .ok (some (.byIndex i.val))) ∧
    (els = [] → clickElement d none (some els) (some v) = .ok none) := by
  refine ⟨?_, ?_, ?_⟩
  · intro hno hne
    unfold clickElement
    dsimp only
    rw [if_pos ⟨hne, hv⟩]
    have hidx : els.findIdx? (fun el => el.text == v) = none :=
      List.findIdx?_eq_none_iff.mpr (fun x hx => by
        show (x.text == v) = false
        simpa using hno x hx)
    rw [hidx]
  · rintro ⟨el, hel, htext⟩
    have hne : els ≠ [] := List.ne_nil_of_mem hel
    cases hidx : els.findIdx? (fun el => el.text == v) with
    | none =>
      exfalso
      have := List.findIdx?_eq_none_iff.mp hidx el hel
      simp [htext] at this
    | some i =>
      obtain ⟨hi, hpi, hmin⟩ := List.findIdx?_eq_some_iff_getElem.mp hidx
      refine ⟨⟨i, hi⟩, ?_, ?_, ?_⟩
      · have : (els[i].text == v) = true := by simpa using hpi
        simpa [List.get_eq_getElem] using this
      · intro j hj
        have := hmin j.val hj
        simp only [Bool.not_eq_true, beq_eq_false_iff_ne] at this
        simpa [List.get_eq_getElem] using this
      · unfold clickElement
        dsimp only
        rw [if_pos ⟨hne, hv⟩, hidx]
        have hstale : els[i].stale = false :=
          hlive els[i] (List.getElem_mem hi)
        simp [List.getD_eq_getElem?_getD, List.getElem?_eq_getElem hi,
          elemInteract, hstale, Bind.bind, Except.bind, pure, Except.pure]
  · rintro rfl
    rfl

theorem click_matching_spec_witness :
    clickElement emptyDom none
        (some [⟨"Edit", true, false⟩, ⟨"Delete", true, false⟩]) (some "Save") =
      .error (.fw (.notFound
        "Element with text Save not found in the provided elements.")) :=
  (click_matching_spec emptyDom
    [⟨"Edit", true, false⟩, ⟨"Delete", true, false⟩] "Save"
    (by decide) (by decide)).1 (by decide) (by decide)

/-- **C4 (counterexample).** The claim says `select_many` fails exactly
when not every requested value was matched.  Here every requested value
(`"A"`) IS matched by an option element, yet two option elements carry the
text `"A"`, both get clicked, and the count check `selected_count !=
len(values)` (2 ≠ 1) raises anyway. -/
theorem select_options_counterexample :
    (∀ v ∈ ["A"], ∃ c ∈ dupChoicesDom.findAll demoChoicesLocator,
      c.text = v) ∧
    selectOptions dupChoicesDom demoDropdownLocator demoChoicesLocator ["A"] =
      .error (.fw (.partialSelection
        "Not all options were selected. Expected: 1, Selected: 2.")) := by
  constructor
  · decide
  · rfl

/-- **C4 (amended).** `select_options` raises `PartialSelectionError`
exactly when the NUMBER of option elements whose text is among the
requested values differs from the number of requested values (each
matching option having been clicked); when the two counts agree the
operation completes without error. -/
theorem select_options_count_spec (d : Dom) (dd cc : Locator)
    (values : List String) (el : Elem)
    (hdd : d.find dd = some el) (hlive : el.stale = false) :
    (((d.findAll cc).filter (fun c => values.contains c.text)).length =
        values.length →
      selectOptions d dd cc values =
        .ok ((d.findAll cc).filter (fun c => values.contains c.text)).length) ∧
    (((d.findAll cc).filter (fun c => values.contains c.text)).length ≠
        values.length →
      selectOptions d dd cc values =
        .error (.fw (.partialSelection
          ("Not all options were selected. Expected: " ++ toString values.length
            ++ ", Selected: "
            ++ toString ((d.findAll cc).filter
                (fun c => values.contains c.text)).length ++ ".")))) := by
  constructor <;> intro hcount
  · have hc : (List.filter (fun c => decide (c.text ∈ values))
        (d.findAll cc)).length = values.length := by simpa using hcount
    simp [selectOptions, getElement, hdd, elemInteract, hlive, Bind.bind,
      Except.bind, hc, pure, Except.pure]
  · have hc : (List.filter (fun c => decide (c.text ∈ values))
        (d.findAll cc)).length ≠ values.length := by simpa using hcount
    simp [selectOptions, getElement, hdd, elemInteract, hlive, Bind.bind,
      Except.bind, hc, pure, Except.pure]

theorem select_options_count_spec_witness :
    selectOptions dupChoicesDom demoDropdownLocator demoChoicesLocator
      ["A", "A"] = .ok 2 := by
  have h := (select_options_count_spec dupChoicesDom demoDropdownLocator
    demoChoicesLocator ["A", "A"] ⟨"dropdown", true, false⟩ rfl rfl).1 (by decide)
  simpa using h

/-- **C9.** Driver factory: for every browser-kind string whose trimmed,
lowercased form is one of chrome/firefox/edge, `driver_manager` returns a
session of that kind that is maximized and has zero cookies; for every
other string it raises `UnsupportedBrowserError` whose message names the
offending value and lists the valid choices, and no session setup takes
place (no session is produced at all). -/
theorem driver_manager_spec (cookies : List String) (browser : String)
    (remote : Bool) (version testName : String) :
    (pyLower (pyStrip browser) ∈ supportedBrowsers →
      driverManager cookies browser remote version testName =
        .ok ⟨pyLower (pyStrip browser), true, []⟩) ∧
    (pyLower (pyStrip browser) ∉ supportedBrowsers →
      driverManager cookies browser remote version testName =
        .error (.fw (.unsupportedBrowser (unsupportedBrowserMessage browser)))) := by
  constructor
  · intro hmem
    simp only [supportedBrowsers, List.mem_cons, List.not_mem_nil,
      or_false] at hmem
    rcases hmem with h | h | h <;>
      simp [driverManager, h, maximizeWindow, deleteAllCookies]
  · intro hmem
    simp only [supportedBrowsers, List.mem_cons, List.not_mem_nil,
      or_false, not_or] at hmem
    obtain ⟨h1, h2, h3⟩ := hmem
    simp [driverManager, h1, h2, h3]

theorem driver_manager_spec_witness :
    driverManager ["session-cookie"] " Chrome " false "latest" "test_login" =
      .ok ⟨"chrome", true, []⟩ ∧
    driverManager [] "safari" true "latest" "test_login" =
      .error (.fw (.unsupportedBrowser
        "Unsupported browser type: safari. Supported browsers are: Chrome, Firefox, Edge")) := by
  constructor
  · have h := (driver_manager_spec ["session-cookie"] " Chrome " false
      "latest" "test_login").1 (by decide)
    simpa using h
  · have h := (driver_manager_spec [] "safari" true "latest" "test_login").2
      (by decide)
    simpa [unsupportedBrowserMessage] using h

/-- **C2.** Registration flow (under the environment the claim
presupposes: the form fields are reachable, the row's fields are
non-empty, and a post-submit message is shown): when the stripped
post-submit message equals the configured success text, `register_user`
returns `True` after logging out and re-opening the registration form
(session left at the form, ready for the next invocation); when the
message differs, it returns `False` without raising and without the
log-out / re-navigation steps. -/
theorem register_user_flow (w : RegWorld) (fn ln em tel pw sub : String)
    (hform : w.formVisible = true) (hln : ln ≠ "") (hem : em ≠ "")
    (htel : tel ≠ "") (hpw : pw ≠ "") (hmesg : w.successMesgVisible = true) :
    (pyStrip w.successMesgText = USER_REGISTER_SUCCESS_MESG →
      w.formVisibleAgain = true →
      ∃ tr, registerUser w fn ln em tel pw sub = .ok (true, tr) ∧
        RegAction.clickLogout ∈ tr ∧ RegAction.clickRegister ∈ tr) ∧
    (pyStrip w.successMesgText ≠ USER_REGISTER_SUCCESS_MESG →
      ∃ tr, registerUser w fn ln em tel pw sub = .ok (false, tr) ∧
        RegAction.clickLogout ∉ tr ∧ RegAction.clickRegister ∉ tr) := by
  constructor
  · intro hsucc hagain
    refine ⟨regFormTrace fn ln em tel pw
        (if pyLower (pyStrip sub) = "yes" then 1 else 2)
      ++ [.clickLogout, .clickRegister], ?_, ?_, ?_⟩
    · simp [registerUser, hform, hln, hem, htel, hpw, hmesg, hsucc, hagain]
    · simp [regFormTrace]
    · simp [regFormTrace]
  · intro hfail
    refine ⟨regFormTrace fn ln em tel pw
        (if pyLower (pyStrip sub) = "yes" then 1 else 2), ?_, ?_, ?_⟩
    · simp [registerUser, hform, hln, hem, htel, hpw, hmesg, hfail]
    · simp [regFormTrace]
    · simp [regFormTrace]

theorem register_user_flow_witness :
    (∃ tr, registerUser ⟨true, true, " Your Account Has Been Created! ", true⟩
        "John" "Doe" "john@example.com" "1234567890" "Secret123" "yes" =
        .ok (true, tr) ∧
      RegAction.clickLogout ∈ tr ∧ RegAction.clickRegister ∈ tr) ∧
    (∃ tr, registerUser ⟨true, true, "Register Account", true⟩
        "John" "Doe" "john@example.com" "1234567890" "Secret123" "no" =
        .ok (false, tr) ∧
      RegAction.clickLogout ∉ tr ∧ RegAction.clickRegister ∉ tr) :=
  ⟨(register_user_flow _ "John" "Doe" "john@example.com" "1234567890"
      "Secret123" "yes" rfl (by decide) (by decide) (by decide) (by decide)
      rfl).1 (by decide) rfl,
   (register_user_flow _ "John" "Doe" "john@example.com" "1234567890"
      "Secret123" "no" rfl (by decide) (by decide) (by decide) (by decide)
      rfl).2 (by decide)⟩

theorem wait_visible_terminates_witness :
    waitForElementToBeVisible (fun _ => emptyDom) ("id", "loading-complete") 10 =
      .error (.fw (.timeout ("id", "loading-complete") 10
        (timeoutMessage ("id", "loading-complete") 10))) :=
  (wait_visible_terminates (fun _ => emptyDom)
    ("id", "loading-complete") 10).2.2.mpr (fun _ _ => rfl)

end OpenCartSuite
